import Mathlib

/-!
Shallow embedding of `Manila/Pike/v3/helper.py` (class `RestHelper`), the
REST client / session manager for the Huawei OceanStor V3 storage array.

The HTTP layer is modelled by oracles: a function from request URL to the
raw transport outcome (for `do_call`), or from exchange index / candidate
URL to the parsed result envelope (for `call` and `login`).  Every result
envelope is the `{error: {code, description}, data}` wire shape; Python
exceptions become an `Except` error value.  Python strings are Lean
`String`s; the few string primitives whose Lean core implementations do
not reduce in the kernel (split, contains, startswith, replace, strip)
are re-implemented on the underlying character list.
-/

namespace RestHelper

/-- Python string membership test for one character (`ch in s`). -/
def pyContains (s : String) (ch : Char) : Bool :=
  s.data.contains ch

/-- Python `s.startswith(p)`. -/
def pyStartsWith (s p : String) : Bool :=
  p.data.isPrefixOf s.data

/-- Python `s.split(sep)` for a one-character separator (keeps empty parts). -/
def pySplit (s : String) (sep : Char) : List String :=
  (s.data.splitOn sep).map List.asString

/-- Python `s.strip('\n')`: remove newlines from both ends. -/
def stripNewlines (s : String) : String :=
  (((s.data.dropWhile (· = '\n')).reverse.dropWhile (· = '\n')).reverse).asString

/-- Python `s.replace("-", "_")` (the only replacement the helper performs). -/
def replaceDash (s : String) : String :=
  (s.data.map (fun ch => if ch = '-' then '_' else ch)).asString

/-- Python `s[1:-1]`: drop the first and the last character. -/
def pyStrip2 (s : String) : String :=
  ((s.data.drop 1).take ((s.data.drop 1).length - 1)).asString

/-- The `error` member of a REST result envelope. -/
structure ErrInfo where
  code : Int
  description : String
deriving Repr, DecidableEq

/-- The uniform result envelope `{"error": {...}, "data": <optional>}`;
`data = none` models the `data` key being absent. -/
structure Envelope (α : Type) where
  error : ErrInfo
  data : Option α := none
deriving Repr, DecidableEq

/-- The exceptions the helper raises.  `invalidShare` models
`exception.InvalidShare`; when the reason string was formatted as
`'%(err)s\nresult: %(res)s.'` the original envelope is carried alongside
the caller's message.  `shareBackend` models
`exception.ShareBackendException`. -/
inductive HelperErr (α : Type) where
  | invalidShare (reason : String) (result : Option (Envelope α))
  | invalidShareSnapshot (reason : String) (result : Envelope α)
  | shareBackend (msg : String)
deriving Repr, DecidableEq

/-- Modelled from the spec: the sentinel error codes and tuning constants
come from the driver's `constants` module, which is not part of the
sources here.  The spec fixes only that code `0` means success, that each
sentinel drives one specific branch, and that at most 64 filesystems fit
in one QoS policy, so the codes are kept abstract as fields. -/
structure Consts where
  ERROR_CONNECT_TO_SERVER : Int
  ERROR_UNAUTHORIZED_TO_SERVER : Int
  ERROR_USER_OR_GROUP_NOT_EXIST : Int
  MSG_SNAPSHOT_NOT_FOUND : Int
  ERROR_REPLICATION_PAIR_NOT_EXIST : Int
  ERROR_HYPERMETRO_NOT_EXIST : Int
  ERROR_LOGICAL_PORT_EXIST : Int
  PWD_EXPIRED_OR_INITIAL : List Int
  STATUS_QOS_ACTIVE : String
  MAX_FS_NUM_IN_QOS : Nat
  QOS_NAME_PREF : String
  OPTS_QOS_VALUE : List String
deriving Repr, DecidableEq

/-- Modelled from the spec: one concrete instantiation of the sentinel
codes, used to evaluate the definitions on closed inputs.  The spec
requires the sentinels to be non-zero and pairwise distinct; the numeric
values themselves are illustrative. -/
def demoConsts : Consts where
  ERROR_CONNECT_TO_SERVER := -403
  ERROR_UNAUTHORIZED_TO_SERVER := -401
  ERROR_USER_OR_GROUP_NOT_EXIST := 1077939723
  MSG_SNAPSHOT_NOT_FOUND := 1073754118
  ERROR_REPLICATION_PAIR_NOT_EXIST := 1077937923
  ERROR_HYPERMETRO_NOT_EXIST := 1077674242
  ERROR_LOGICAL_PORT_EXIST := 1073813505
  PWD_EXPIRED_OR_INITIAL := [3, 4]
  STATUS_QOS_ACTIVE := "2"
  MAX_FS_NUM_IN_QOS := 64
  QOS_NAME_PREF := "OpenStack_Fake_QoS_"
  OPTS_QOS_VALUE := ["maxiops", "miniops", "minbandwidth", "maxbandwidth", "latency"]

/-- `RestHelper._assert_rest_result`: raise `InvalidShare` (carrying the
caller's message and the whole envelope) when `error.code != 0`. -/
def assert_rest_result {α : Type} (result : Envelope α) (err_str : String) :
    Except (HelperErr α) Unit :=
  if result.error.code ≠ 0 then
    .error (.invalidShare err_str (some result))
  else
    .ok ()

/-- `RestHelper._assert_data_in_result`: raise `InvalidShare` when the
envelope has no `data` member. -/
def assert_data_in_result {α : Type} (result : Envelope α) (msg : String) :
    Except (HelperErr α) Unit :=
  if result.data.isNone then
    .error (.invalidShare (msg ++ " \"data\" was not in result.") none)
  else
    .ok ()

/-- Raw outcome of one HTTP exchange as seen inside `do_call`: the
`requests` call raised (connection/transport failure), or
`raise_for_status` raised (HTTP 4xx/5xx), or a JSON body was parsed. -/
inductive HttpOutcome (α : Type) where
  | connError (errText : String)
  | httpError (status : Nat) (excText : String)
  | success (body : Envelope α)
deriving Repr, DecidableEq

/-- The `if self.url: url = self.url + url` prefixing at the top of
`do_call`. -/
def effective_url (self_url : Option String) (url : String) : String :=
  match self_url with
  | some base => base ++ url
  | none => url

/-- `RestHelper.do_call`: prefix the stored base URL when one is set,
validate the method (default `POST`), then convert the raw HTTP outcome
into a result envelope: connection failures become the
`ERROR_CONNECT_TO_SERVER` sentinel with the fixed description, HTTP
failures become `code = status, description = exception text`, and a
successful JSON body is returned verbatim. -/
def do_call {α : Type} (c : Consts) (oracle : String → HttpOutcome α)
    (self_url : Option String) (url : String) (method : Option String := none) :
    Except (HelperErr α) (Envelope α) :=
  let full_url := effective_url self_url url
  let m := method.getD "POST"
  if m = "POST" ∨ m = "PUT" ∨ m = "GET" ∨ m = "DELETE" then
    match oracle full_url with
    | .connError _ =>
        .ok { error := ⟨c.ERROR_CONNECT_TO_SERVER, "Connect server error"⟩ }
    | .httpError status excText =>
        .ok { error := ⟨(status : Int), excText⟩ }
    | .success body => .ok body
  else
    .error (.shareBackend ("Request method " ++ m ++ " is invalid."))

/-- The `data` payload of a successful login response. -/
structure LoginData where
  deviceid : Option String
  iBaseToken : String
  accountstate : Int
deriving Repr, DecidableEq

/-- The client-side session state the login/logout code mutates:
`self.url` and the `iBaseToken` header of the HTTP session. -/
structure SessionState where
  url : Option String
  iBaseToken : Option String
deriving Repr, DecidableEq

/-- `RestHelper.init_http_head`: reset `self.url` and start a fresh HTTP
session (no auth-token header). -/
def init_http_head : SessionState := ⟨none, none⟩

/-- `RestHelper.logout`: if a base URL is set, issue `DELETE /sessions`
and assert its envelope is a success. -/
def logout (logout_resp : Envelope Unit) (st : SessionState) :
    Except (HelperErr Unit) Unit :=
  if st.url.isSome then
    assert_rest_result logout_resp "Logout session error."
  else
    .ok ()

/-- The rejection test of one login attempt, literally
`(code != 0) or ("data" not in result) or (deviceid is None)`. -/
def login_rejected (result : Envelope LoginData) : Bool :=
  result.error.code != 0 || result.data.isNone ||
    (result.data.bind LoginData.deviceid).isNone

/-- The request URL of one login attempt:
`item_url.strip('').strip('\n') + "xx/sessions"`. -/
def login_request_url (item_url : String) : String :=
  stripNewlines item_url ++ "xx/sessions"

/-- The `for item_url in url_list` loop of `RestHelper.login`.  `resp`
maps a login request URL to its envelope and `logout_resp` is the
envelope of the `DELETE /sessions` call performed on the
password-expired path.  Each iteration resets the session state
(`init_http_head`); an accepted candidate stores
`self.url = item_url + deviceid` and the `iBaseToken` header, then
checks `accountstate` against the password-expired set: on a match it
logs out and raises `ShareBackendException`.  The returned state is the
session state at the moment login returns or raises. -/
def login_loop (c : Consts) (resp : String → Envelope LoginData)
    (logout_resp : Envelope Unit) :
    List String → SessionState → Except (HelperErr Unit) String × SessionState
  | [], st => (.error (.invalidShare "All url login fail." none), st)
  | item_url :: rest, _ =>
    let st1 := init_http_head
    let result := resp (login_request_url item_url)
    if result.error.code ≠ 0 then
      login_loop c resp logout_resp rest st1
    else
      match result.data with
      | none => login_loop c resp logout_resp rest st1
      | some d =>
        match d.deviceid with
        | none => login_loop c resp logout_resp rest st1
        | some deviceid =>
          let st2 : SessionState := ⟨some (item_url ++ deviceid), some d.iBaseToken⟩
          if d.accountstate ∈ c.PWD_EXPIRED_OR_INITIAL then
            match logout logout_resp st2 with
            | .error e => (.error e, st2)
            | .ok _ =>
              (.error (.shareBackend
                "Password has expired or initial, please change the password."), st2)
          else
            (.ok deviceid, st2)

/-- `RestHelper.login`: split the configured `RestURL` on `;` and walk the
candidates. -/
def login (c : Consts) (resp : String → Envelope LoginData)
    (logout_resp : Envelope Unit) (urlstr : String) :
    Except (HelperErr Unit) String × SessionState :=
  login_loop c resp logout_resp (pySplit urlstr ';') init_http_head

/-- `RestHelper.call`: one `do_call`; if its error code is the
connect-to-server or unauthorized sentinel, `login()` once and repeat the
`do_call` once.  `exchange n` is the envelope of the `(n+1)`-th `do_call`
and `login_result` the outcome of the (at most one) `login()`.  Returns
the result together with the number of `do_call` exchanges and the number
of `login()` invocations performed. -/
def call {α : Type} (c : Consts) (exchange : Nat → Envelope α)
    (login_result : Except (HelperErr Unit) String) :
    Except (HelperErr Unit) (Envelope α) × Nat × Nat :=
  let result := exchange 0
  let error_code := result.error.code
  if error_code = c.ERROR_CONNECT_TO_SERVER ∨
      error_code = c.ERROR_UNAUTHORIZED_TO_SERVER then
    match login_result with
    | .error e => (.error e, 1, 1)
    | .ok _ => (.ok (exchange 1), 2, 1)
  else
    (.ok result, 1, 0)

/-- `RestHelper.delete_replication_pair`: the
`ERROR_REPLICATION_PAIR_NOT_EXIST` envelope code is tolerated (warning
only); every other envelope goes through the generic assertion. -/
def delete_replication_pair {α : Type} (c : Consts) (pair_id : String)
    (result : Envelope α) : Except (HelperErr α) Unit :=
  if result.error.code = c.ERROR_REPLICATION_PAIR_NOT_EXIST then
    .ok ()
  else
    assert_rest_result result ("Failed to delete replication pair " ++ pair_id ++ ".")

/-- `RestHelper.delete_hypermetro_pair`: the `ERROR_HYPERMETRO_NOT_EXIST`
envelope code is tolerated (warning only); every other envelope goes
through the generic assertion. -/
def delete_hypermetro_pair {α : Type} (c : Consts) (pair_id : String)
    (result : Envelope α) : Except (HelperErr α) Unit :=
  if result.error.code = c.ERROR_HYPERMETRO_NOT_EXIST then
    .ok ()
  else
    assert_rest_result result ("Delete HyperMetro pair " ++ pair_id ++ " error.")

/-- `RestHelper._delete_snapshot`: the result of the `DELETE` call goes
straight to the generic assertion; no envelope code is tolerated. -/
def delete_snapshot {α : Type} (result : Envelope α) : Except (HelperErr α) Unit :=
  assert_rest_result result "Delete snapshot error."

/-- `RestHelper._check_snapshot_id_exist`: `MSG_SNAPSHOT_NOT_FOUND` means
the snapshot does not exist (no error), code `0` means it exists, and any
other code raises `InvalidShareSnapshot`. -/
def check_snapshot_id_exist {α : Type} (c : Consts) (snapshot_info : Envelope α) :
    Except (HelperErr α) Bool :=
  if snapshot_info.error.code = c.MSG_SNAPSHOT_NOT_FOUND then
    .ok false
  else if snapshot_info.error.code = 0 then
    .ok true
  else
    .error (.invalidShareSnapshot "Check the snapshot id exists error!" snapshot_info)

/-- One element of the `data` list of an access-rule page. -/
structure AccessItem where
  NAME : String
  ID : String
deriving Repr, DecidableEq

/-- The `for item in access_range` body of `_get_access_from_share`: an
item whose `NAME` is `access_to` or `'@' + access_to` overwrites the
current `access_id` (last match in the page wins). -/
def scan_access_page (access_to : String) (items : List AccessItem)
    (access_id : Option String) : Option String :=
  items.foldl
    (fun a item =>
      if item.NAME = access_to ∨ item.NAME = "@" ++ access_to then some item.ID
      else a)
    access_id

/-- The `while count > 0` loop of `RestHelper._get_access_from_share`:
break once an access id was found, otherwise fetch the window starting at
`range_begin` (`page` maps a window start to the page's `data` list),
scan it, advance the window by 100 and decrement the remaining count by a
fixed 100.  Also returns how many page queries were issued. -/
def get_access_from_share_loop (page : Nat → List AccessItem) (access_to : String)
    (count : Int) (range_begin : Nat) (access_id : Option String) :
    Option String × Nat :=
  if 0 < count then
    match access_id with
    | some a => (some a, 0)
    | none =>
      let found := scan_access_page access_to (page range_begin) none
      let r := get_access_from_share_loop page access_to (count - 100)
        (range_begin + 100) found
      (r.1, r.2 + 1)
  else
    (access_id, 0)
termination_by (count + 100).toNat
decreasing_by omega

/-- `RestHelper._get_access_from_share` after the `/count` query reported
`count` entries. -/
def get_access_from_share (page : Nat → List AccessItem) (access_to : String)
    (count : Int) : Option String × Nat :=
  get_access_from_share_loop page access_to count 0 none

/-- Modelled from the spec: the claim's reading of the paginated access
scan, in which a page that returns fewer than 100 items (or no items)
ends the scan.  The loop is otherwise identical to
`get_access_from_share_loop`; this definition exists only to be compared
against the one translated from the source. -/
def get_access_from_share_spec_loop (page : Nat → List AccessItem)
    (access_to : String) (count : Int) (range_begin : Nat)
    (access_id : Option String) : Option String × Nat :=
  if 0 < count then
    match access_id with
    | some a => (some a, 0)
    | none =>
      let items := page range_begin
      let found := scan_access_page access_to items none
      if items.length < 100 then
        (found, 1)
      else
        let r := get_access_from_share_spec_loop page access_to (count - 100)
          (range_begin + 100) found
        (r.1, r.2 + 1)
  else
    (access_id, 0)
termination_by (count + 100).toNat
decreasing_by omega

/-- Modelled from the spec: entry point of the claim's reading of the
access scan. -/
def get_access_from_share_spec (page : Nat → List AccessItem)
    (access_to : String) (count : Int) : Option String × Nat :=
  get_access_from_share_spec_loop page access_to count 0 none

/-- `RestHelper._get_share_path`: hyphens become underscores and the name
is wrapped in slashes. -/
def get_share_path (share_name : String) : String :=
  "/" ++ replaceDash share_name ++ "/"

/-- One element of the `data` list of a share page. -/
structure ShareItem where
  SHAREPATH : String
  ID : String
  FSID : String
deriving Repr, DecidableEq

/-- The `ID`/`FSID` pair `_get_share_by_name_range` extracts on a match;
Python returns `{}` (here `none`) when no item of the page matches. -/
structure ShareFound where
  ID : String
  FSID : String
deriving Repr, DecidableEq

/-- `RestHelper._get_share_by_name_range`: first item of the page whose
`SHAREPATH` equals the share path of `share_name`. -/
def get_share_by_name_range (share_name : String) (items : List ShareItem) :
    Option ShareFound :=
  match items.find? (fun item => item.SHAREPATH == get_share_path share_name) with
  | some item => some ⟨item.ID, item.FSID⟩
  | none => none

/-- The `while True` loop of `RestHelper._get_share_by_name`: break when
the remaining count went negative or the previous window produced a
match; otherwise fetch the next window (the result replaces `share`),
advance by 100 and decrement the remaining count by a fixed 100.  Also
returns how many page queries were issued. -/
def get_share_by_name_loop (page : Nat → Option ShareFound) (count : Int)
    (range_begin : Nat) (share : Option ShareFound) : Option ShareFound × Nat :=
  if count < 0 then
    (share, 0)
  else if share.isSome then
    (share, 0)
  else
    let s := page range_begin
    let r := get_share_by_name_loop page (count - 100) (range_begin + 100) s
    (r.1, r.2 + 1)
termination_by (count + 100).toNat
decreasing_by omega

/-- `RestHelper._get_share_by_name` after `_get_share_count` reported
`count` shares. -/
def get_share_by_name (pages : Nat → List ShareItem) (share_name : String)
    (count : Int) : Option ShareFound × Nat :=
  get_share_by_name_loop (fun rb => get_share_by_name_range share_name (pages rb))
    count 0 none

/-- One grant request issued by `_allow_cifs_access_rest`: the `NAME` and
`DOMAINTYPE` fields of the request payload. -/
structure GrantAttempt where
  name : String
  domaintype : String
deriving Repr, DecidableEq

/-- The inner `send_rest` of `RestHelper._allow_cifs_access_rest`: code 0
means granted, `ERROR_USER_OR_GROUP_NOT_EXIST` means "try the fallback"
(returns `false`), and any other code goes through the generic assertion
(which raises, since the code is non-zero there). -/
def send_rest (c : Consts) (result : Envelope Unit) :
    Except (HelperErr Unit) Bool :=
  if result.error.code = 0 then
    .ok true
  else if result.error.code ≠ c.ERROR_USER_OR_GROUP_NOT_EXIST then
    match assert_rest_result result "Allow access error." with
    | .error e => .error e
    | .ok _ => .ok false
  else
    .ok false

/-- The two-step sequence `_allow_cifs_access_rest` performs inside one
of its branches for one domain type: the direct user grant, then (only
when `send_rest` returned `False`, i.e. user-or-group-not-exist) the
`'@'`-prefixed group grant, and finally the shared
`raise InvalidShare(reason=error_msg)` that follows when neither grant
returned.  The attempts actually issued are returned alongside. -/
def cifs_try_domain (c : Consts) (grant : String → String → Envelope Unit)
    (access_to domain_type : String) :
    Except (HelperErr Unit) Unit × List GrantAttempt :=
  let a1 : GrantAttempt := ⟨access_to, domain_type⟩
  match send_rest c (grant access_to domain_type) with
  | .error e => (.error e, [a1])
  | .ok true => (.ok (), [a1])
  | .ok false =>
    let a2 : GrantAttempt := ⟨"@" ++ access_to, domain_type⟩
    match send_rest c (grant ("@" ++ access_to) domain_type) with
    | .error e => (.error e, [a1, a2])
    | .ok true => (.ok (), [a1, a2])
    | .ok false => (.error (.invalidShare "Allow access error." none), [a1, a2])

/-- `RestHelper._allow_cifs_access_rest`: identities without a backslash
run the two-step sequence with the local domain type (`'2'`); identities
with a backslash run it with the AD domain type (`'0'`).  `grant` maps a
`(NAME, DOMAINTYPE)` request to its envelope; the list of attempts
actually issued is returned alongside the outcome. -/
def allow_cifs_access_rest (c : Consts) (grant : String → String → Envelope Unit)
    (access_to : String) :
    Except (HelperErr Unit) Unit × List GrantAttempt :=
  if ¬ pyContains access_to '\\' then
    cifs_try_domain c grant access_to "2"
  else
    cifs_try_domain c grant access_to "0"

/-- One element of the `data` list returned by `GET /ioclass`.  `vals`
models `item.get(...)` for the QoS spec keys compared by
`find_available_qos`; the remaining fields are the ones the reuse test
reads directly. -/
structure QosItem where
  ID : String
  NAME : String
  FSLIST : String
  LUNLIST : String
  RUNNINGSTATUS : String
  vals : String → Option String

/-- Python `key.upper()` via `Char.toUpper`. -/
def pyUpper (s : String) : String :=
  (s.data.map Char.toUpper).asString

/-- The `if 'LATENCY' not in temp_qos: temp_qos['LATENCY'] = '0'` default
applied to the caller-supplied QoS spec (an association list modelling
the Python dict). -/
def with_latency_default (qos : List (String × String)) : List (String × String) :=
  if (qos.lookup "LATENCY").isNone then qos ++ [("LATENCY", "0")] else qos

/-- The `for key in constants.OPTS_QOS_VALUE` inner loop with its
`for ... else`: every key's uppercase value must agree between the
requested spec and the array's item. -/
def qos_specs_match (c : Consts) (temp_qos : List (String × String))
    (item : QosItem) : Bool :=
  c.OPTS_QOS_VALUE.all
    (fun key => temp_qos.lookup (pyUpper key) == item.vals (pyUpper key))

/-- `fs_num = len(item['FSLIST'].split(","))`. -/
def fs_num (item : QosItem) : Nat :=
  (item.FSLIST.data.splitOn ',').length

/-- The reuse test of `find_available_qos`: active, fewer than
`MAX_FS_NUM_IN_QOS` member filesystems, recognised name, and an empty
`LUNLIST` (the literal string `'[""]'`). -/
def qos_available (c : Consts) (item : QosItem) : Bool :=
  item.RUNNINGSTATUS == c.STATUS_QOS_ACTIVE &&
    decide (fs_num item < c.MAX_FS_NUM_IN_QOS) &&
    pyStartsWith item.NAME c.QOS_NAME_PREF &&
    item.LUNLIST == "[\"\"]"

/-- `RestHelper.find_available_qos`: first policy whose QoS values all
match the requested spec (with the `LATENCY` default applied) and which
passes the reuse test; returns its `ID` and `FSLIST` (Python initialises
`fs_list` to `[]`, modelled as `none`). -/
def find_available_qos (c : Consts) (qos : List (String × String))
    (data : Option (List QosItem)) : Option String × Option String :=
  let temp_qos := with_latency_default qos
  match data with
  | none => (none, none)
  | some items =>
    match items.find? (fun item => qos_specs_match c temp_qos item &&
        qos_available c item) with
    | some item => (some item.ID, some item.FSLIST)
    | none => (none, none)

/-- The parse half of `RestHelper.add_share_to_qos`: strip the brackets
(`fs_list[1:-1]`), split on commas, and strip the quotes of every part
(`fs_string[1:-1]`). -/
def parse_fs_list (fs_list : String) : List String :=
  ((pyStrip2 fs_list).data.splitOn ',').map (fun part => pyStrip2 part.asString)

/-- The new `FSLIST` payload `RestHelper.add_share_to_qos` sends: every
parsed id that is non-empty and differs from `fs_id` is kept, then
`fs_id` is appended. -/
def add_share_to_qos_fs_list (fs_id : String) (fs_list : String) : List String :=
  ((parse_fs_list fs_list).filter (fun tmp_fs_id =>
    tmp_fs_id != "" && tmp_fs_id != fs_id)) ++ [fs_id]

/-- The JSON encoding `jsonutils.dumps` gives a list of ids inside the
update payload: the quote-wrapped, comma-separated, bracketed string the
array hands out in `FSLIST`. -/
def serialize_fs_list (l : List String) : String :=
  ('[' :: ([','].intercalate (l.map (fun s => '"' :: s.data ++ ['"']))) ++ [']']).asString

deriving instance DecidableEq for Except

/-- Fixture: two-exchange transport trace whose first exchange reports the
unauthorized sentinel and whose retry succeeds. -/
def exchangeFixture : Nat → Envelope Unit := fun n =>
  if n = 0 then { error := ⟨demoConsts.ERROR_UNAUTHORIZED_TO_SERVER, "unauthorized"⟩ }
  else { error := ⟨0, "0"⟩ }

/-- Fixture: access pages for a reported count of 250 where the first
window is empty and the second window holds the target. -/
def accessPageFixture : Nat → List AccessItem := fun rb =>
  if rb = 100 then [⟨"alice", "5"⟩] else []

/-- Fixture: login responses where the first candidate URL reports a
connect failure and the second is accepted with device id `dev`. -/
def loginRespFixture : String → Envelope LoginData := fun s =>
  if s = "u2xx/sessions" then ⟨⟨0, "0"⟩, some ⟨some "dev", "tok", 0⟩⟩
  else ⟨⟨-403, "conn"⟩, none⟩

/-- Fixture: login response accepted with device id `dev` but an
account state inside the password-expired set. -/
def loginExpiredFixture : String → Envelope LoginData := fun _ =>
  ⟨⟨0, "0"⟩, some ⟨some "dev", "tok", 3⟩⟩

/-- Fixture: every CIFS grant request reports user-or-group-not-exist. -/
def grantNotExistFixture : String → String → Envelope Unit := fun _ _ =>
  { error := ⟨demoConsts.ERROR_USER_OR_GROUP_NOT_EXIST, "no user"⟩ }

/-- Fixture: CIFS grant oracle where the direct user grant reports
user-or-group-not-exist and the group grant succeeds. -/
def grantGroupFixture : String → String → Envelope Unit := fun name _ =>
  if name = "@alice" then { error := ⟨0, "0"⟩ }
  else { error := ⟨demoConsts.ERROR_USER_OR_GROUP_NOT_EXIST, "no user"⟩ }

/-- Fixture: a reusable QoS policy as reported by `GET /ioclass`. -/
def qosItemFixture : QosItem where
  ID := "11"
  NAME := "OpenStack_Fake_QoS_5"
  FSLIST := "[\"9\"]"
  LUNLIST := "[\"\"]"
  RUNNINGSTATUS := "2"
  vals := fun k =>
    if k = "MAXIOPS" then some "100"
    else if k = "LATENCY" then some "0" else none

/-- Fixture: share pages that never contain the wanted share. -/
def sharePagesEmpty : Nat → List ShareItem := fun _ => []

/-!  Helper lemmas about the pagination loops and the fs-list encoding. -/

/-- A non-positive remaining count ends the access scan at once. -/
lemma get_access_loop_nonpos (page : Nat → List AccessItem) (t : String)
    (count : Int) (rb : Nat) (acc : Option String) (h : count ≤ 0) :
    get_access_from_share_loop page t count rb acc = (acc, 0) := by
  rw [get_access_from_share_loop.eq_def]
  rw [if_neg (by omega)]

/-- An already-found access id ends the access scan with no further page
queries. -/
lemma get_access_loop_found (page : Nat → List AccessItem) (t : String)
    (count : Int) (rb : Nat) (a : String) :
    get_access_from_share_loop page t count rb (some a) = (some a, 0) := by
  rw [get_access_from_share_loop]
  by_cases h : 0 < count
  · rw [if_pos h]
  · rw [if_neg h]

/-- With pages that never match, the access scan issues exactly
`⌈count / 100⌉` page queries and finds nothing. -/
lemma get_access_loop_no_match (page : Nat → List AccessItem) (t : String)
    (h : ∀ rb, scan_access_page t (page rb) none = none) :
    ∀ (N : Nat) (rb : Nat),
      get_access_from_share_loop page t (N : Int) rb none = (none, (N + 99) / 100) := by
  intro N
  induction N using Nat.strong_induction_on with
  | _ N ih =>
    intro rb
    rw [get_access_from_share_loop]
    by_cases hN : 0 < (N : Int)
    · rw [if_pos hN]
      simp only [h rb]
      rcases Nat.lt_or_ge N 100 with hlt | hge
      · rw [get_access_loop_nonpos page t _ _ _ (by omega)]
        simp only [Prod.mk.injEq, true_and]
        omega
      · have hsub : (N : Int) - 100 = ((N - 100 : Nat) : Int) := by omega
        rw [hsub, ih (N - 100) (by omega)]
        simp only [Prod.mk.injEq, true_and]
        omega
    · rw [if_neg hN]
      simp only [Prod.mk.injEq, true_and]
      omega

/-- The access scan never issues more than `⌈count / 100⌉` page queries. -/
lemma get_access_loop_queries_le (page : Nat → List AccessItem) (t : String) :
    ∀ (N : Nat) (rb : Nat) (acc : Option String),
      (get_access_from_share_loop page t (N : Int) rb acc).2 ≤ (N + 99) / 100 := by
  intro N
  induction N using Nat.strong_induction_on with
  | _ N ih =>
    intro rb acc
    rw [get_access_from_share_loop.eq_def]
    by_cases hN : 0 < (N : Int)
    · rw [if_pos hN]
      match acc with
      | some a => simp
      | none =>
        simp only
        rcases Nat.lt_or_ge N 100 with hlt | hge
        · rw [get_access_loop_nonpos page t _ _ _ (by omega)]
          simp only
          omega
        · have hsub : (N : Int) - 100 = ((N - 100 : Nat) : Int) := by omega
          rw [hsub]
          have hb := ih (N - 100) (by omega) (rb + 100)
            (scan_access_page t (page rb) none)
          omega
    · rw [if_neg hN]
      simp

/-- A negative remaining count ends the share scan at once. -/
lemma get_share_loop_neg (page : Nat → Option ShareFound) (count : Int)
    (rb : Nat) (share : Option ShareFound) (h : count < 0) :
    get_share_by_name_loop page count rb share = (share, 0) := by
  rw [get_share_by_name_loop]
  rw [if_pos h]

/-- With pages that never match, the share scan issues exactly
`count / 100 + 1` page queries (one even for a zero count) and finds
nothing. -/
lemma get_share_loop_no_match (page : Nat → Option ShareFound)
    (h : ∀ rb, page rb = none) :
    ∀ (N : Nat) (rb : Nat),
      get_share_by_name_loop page (N : Int) rb none = (none, N / 100 + 1) := by
  intro N
  induction N using Nat.strong_induction_on with
  | _ N ih =>
    intro rb
    rw [get_share_by_name_loop]
    rw [if_neg (by omega)]
    simp only [Option.isSome_none, Bool.false_eq_true, if_false, h rb]
    rcases Nat.lt_or_ge N 100 with hlt | hge
    · rw [get_share_loop_neg page _ _ _ (by omega)]
      simp only [Prod.mk.injEq, true_and]
      omega
    · have hsub : (N : Int) - 100 = ((N - 100 : Nat) : Int) := by omega
      rw [hsub, ih (N - 100) (by omega)]
      simp only [Prod.mk.injEq, true_and]
      omega

/-- `pyStrip2` really removes the first and last characters: on a string
whose characters are `a :: mid ++ [b]` it returns `mid`. -/
lemma pyStrip2_wrap (a b : Char) (mid : List Char) :
    pyStrip2 (a :: mid ++ [b]).asString = mid.asString := by
  unfold pyStrip2
  have h1 : (a :: mid ++ [b]).asString.data = a :: mid ++ [b] := rfl
  rw [h1]
  have h2 : (a :: mid ++ [b]).drop 1 = mid ++ [b] := rfl
  rw [h2]
  have h3 : (mid ++ [b]).length - 1 = mid.length := by simp
  rw [h3, List.take_left]

/-- Stripping the brackets added by `serialize_fs_list` recovers the
comma-joined quoted parts. -/
lemma pyStrip2_serialize (l : List String) :
    (pyStrip2 (serialize_fs_list l)).data =
      [','].intercalate (l.map (fun s => '"' :: s.data ++ ['"'])) := by
  rw [serialize_fs_list, pyStrip2_wrap]
  rfl

/-- Stripping the quotes added around one id recovers the id. -/
lemma pyStrip2_quote (s : String) : pyStrip2 ('"' :: s.data ++ ['"']).asString = s := by
  rw [pyStrip2_wrap '"' '"' s.data]
  exact String.asString_toList s

/-- If every candidate before `u` is rejected and `u`'s response is
accepted (code 0, data present, device id present), the login loop stops
at `u`: it stores `item_url + deviceid` and the token, then either raises
on an expired account state (after logging out) or returns the device
id.  The state parameter of the loop is irrelevant because every
iteration resets it. -/
lemma login_loop_first_accepted (c : Consts) (resp : String → Envelope LoginData)
    (logout_resp : Envelope Unit) (u : String) (d : LoginData) (dev : String)
    (hcode : (resp (login_request_url u)).error.code = 0)
    (hdata : (resp (login_request_url u)).data = some d)
    (hdev : d.deviceid = some dev) :
    ∀ (pre : List String),
      (∀ v ∈ pre, login_rejected (resp (login_request_url v)) = true) →
    ∀ (rest : List String) (st : SessionState),
      login_loop c resp logout_resp (pre ++ u :: rest) st =
        (if d.accountstate ∈ c.PWD_EXPIRED_OR_INITIAL then
          match logout logout_resp ⟨some (u ++ dev), some d.iBaseToken⟩ with
          | .error e => (.error e, ⟨some (u ++ dev), some d.iBaseToken⟩)
          | .ok _ =>
            (.error (.shareBackend
              "Password has expired or initial, please change the password."),
             (⟨some (u ++ dev), some d.iBaseToken⟩ : SessionState))
        else (.ok dev, ⟨some (u ++ dev), some d.iBaseToken⟩)) := by
  intro pre
  induction pre with
  | nil =>
    intro _ rest st
    simp only [List.nil_append, login_loop]
    rw [if_neg (by simp [hcode])]
    rw [hdata]
    simp only
    rw [hdev]
  | cons v pre ih =>
    intro hrej rest st
    have hv := hrej v (List.mem_cons_self v pre)
    have hpre : ∀ w ∈ pre, login_rejected (resp (login_request_url w)) = true :=
      fun w hw => hrej w (List.mem_cons_of_mem v hw)
    have hrec := ih hpre rest init_http_head
    clear ih hrej
    simp only [List.cons_append, login_loop]
    split
    · exact hrec
    · split
      · exact hrec
      · split
        · exact hrec
        · exfalso
          simp_all [login_rejected]

/-- If every candidate is rejected, the login loop fails with the
all-URLs-exhausted error; when at least one candidate was tried the
session state ends up reset. -/
lemma login_loop_all_fail (c : Consts) (resp : String → Envelope LoginData)
    (logout_resp : Envelope Unit) :
    ∀ (urls : List String) (st : SessionState),
      (∀ v ∈ urls, login_rejected (resp (login_request_url v)) = true) →
      login_loop c resp logout_resp urls st =
        (.error (.invalidShare "All url login fail." none),
         if urls.isEmpty then st else init_http_head) := by
  intro urls
  induction urls with
  | nil =>
    intro st _
    simp [login_loop]
  | cons v rest ih =>
    intro st hrej
    have hv := hrej v (List.mem_cons_self v rest)
    have hrest := ih init_http_head
      (fun w hw => hrej w (List.mem_cons_of_mem v hw))
    rw [ite_self] at hrest
    simp only [login_loop, List.isEmpty_cons]
    split
    · exact hrest
    · split
      · exact hrest
      · split
        · exact hrest
        · exfalso
          simp_all [login_rejected]

/-- Behaviour of the two-step CIFS grant sequence for one domain type,
assuming the user-or-group-not-exist sentinel is non-zero: success on
the user grant, fallback to the group grant exactly on that sentinel,
immediate abort on any other non-zero code, and a final `InvalidShare`
when both grants report the sentinel.  Every attempt carries the given
domain type. -/
lemma cifs_try_domain_cases (c : Consts) (grant : String → String → Envelope Unit)
    (access_to domain_type : String) (hne : c.ERROR_USER_OR_GROUP_NOT_EXIST ≠ 0) :
    (∀ a ∈ (cifs_try_domain c grant access_to domain_type).2,
      a.domaintype = domain_type) ∧
    ((grant access_to domain_type).error.code = 0 →
      cifs_try_domain c grant access_to domain_type =
        (.ok (), [⟨access_to, domain_type⟩])) ∧
    ((grant access_to domain_type).error.code ≠ 0 →
     (grant access_to domain_type).error.code ≠ c.ERROR_USER_OR_GROUP_NOT_EXIST →
      cifs_try_domain c grant access_to domain_type =
        (.error (.invalidShare "Allow access error." (some (grant access_to domain_type))),
         [⟨access_to, domain_type⟩])) ∧
    ((grant access_to domain_type).error.code = c.ERROR_USER_OR_GROUP_NOT_EXIST →
      ((grant ("@" ++ access_to) domain_type).error.code = 0 →
        cifs_try_domain c grant access_to domain_type =
          (.ok (), [⟨access_to, domain_type⟩, ⟨"@" ++ access_to, domain_type⟩])) ∧
      ((grant ("@" ++ access_to) domain_type).error.code = c.ERROR_USER_OR_GROUP_NOT_EXIST →
        cifs_try_domain c grant access_to domain_type =
          (.error (.invalidShare "Allow access error." none),
           [⟨access_to, domain_type⟩, ⟨"@" ++ access_to, domain_type⟩]))) := by
  refine ⟨?_, ?_, ?_, ?_⟩
  · have hshape : (cifs_try_domain c grant access_to domain_type).2 =
        [⟨access_to, domain_type⟩] ∨
        (cifs_try_domain c grant access_to domain_type).2 =
        [⟨access_to, domain_type⟩, ⟨"@" ++ access_to, domain_type⟩] := by
      unfold cifs_try_domain
      split
      · left; rfl
      · left; rfl
      · split
        · right; rfl
        · right; rfl
        · right; rfl
    intro a ha
    rcases hshape with h | h <;> rw [h] at ha <;> simp at ha
    · rw [ha]
    · rcases ha with h2 | h2 <;> rw [h2]
  · intro h0
    unfold cifs_try_domain
    simp [send_rest, h0]
  · intro h0 hu
    unfold cifs_try_domain
    simp [send_rest, assert_rest_result, h0, hu]
  · intro hu
    constructor
    · intro h2
      unfold cifs_try_domain
      simp [send_rest, assert_rest_result, hu, h2, hne]
    · intro h2
      unfold cifs_try_domain
      simp [send_rest, assert_rest_result, hu, h2, hne]

/-- Parsing the serialised fs list recovers the ids, provided the list is
non-empty and no id contains a comma. -/
lemma parse_serialize_fs_list (l : List String) (hne : l ≠ [])
    (hc : ∀ s ∈ l, ',' ∉ s.data) :
    parse_fs_list (serialize_fs_list l) = l := by
  unfold parse_fs_list
  rw [pyStrip2_serialize]
  rw [List.splitOn_intercalate]
  · rw [List.map_map]
    have : ∀ s ∈ l, (fun part => pyStrip2 (List.asString part))
        ((fun s => '"' :: s.data ++ ['"']) s) = s := by
      intro s _
      exact pyStrip2_quote s
    calc l.map _ = l.map id := List.map_congr_left this
    _ = l := List.map_id l
  · intro part hpart
    simp only [List.mem_map] at hpart
    obtain ⟨s, hs, rfl⟩ := hpart
    intro hmem
    rcases List.mem_cons.mp hmem with h1 | h2
    · exact absurd h1.symm (by decide)
    · rcases List.mem_append.mp h2 with h3 | h4
      · exact hc s hs h3
      · simp at h4
  · simp [hne]

/-!  Claim theorems. -/

/-- C1: `call` performs the one-relogin-one-retry policy: when the first
exchange's error code is the connect-to-server or unauthorized sentinel,
exactly one `login()` runs; if it succeeds the exchange is re-issued
exactly once and that second result is returned as-is (even if it failed
again); if the login raises, the error propagates after the single
exchange; any other error code is returned directly with no login; in
every case at most two exchanges and at most one login happen. -/
theorem call_relogin_retry_once {α : Type} (c : Consts) (exchange : Nat → Envelope α)
    (login_result : Except (HelperErr Unit) String) :
    (((exchange 0).error.code = c.ERROR_CONNECT_TO_SERVER ∨
        (exchange 0).error.code = c.ERROR_UNAUTHORIZED_TO_SERVER) →
      (∀ dev, login_result = .ok dev →
          call c exchange login_result = (.ok (exchange 1), 2, 1)) ∧
      (∀ e, login_result = .error e →
          call c exchange login_result = (.error e, 1, 1))) ∧
    (¬ ((exchange 0).error.code = c.ERROR_CONNECT_TO_SERVER ∨
        (exchange 0).error.code = c.ERROR_UNAUTHORIZED_TO_SERVER) →
      call c exchange login_result = (.ok (exchange 0), 1, 0)) ∧
    (call c exchange login_result).2.1 ≤ 2 ∧
    (call c exchange login_result).2.2 ≤ 1 := by
  refine ⟨fun h => ⟨fun dev hdev => ?_, fun e he => ?_⟩, fun h => ?_, ?_, ?_⟩
  · unfold call
    rw [if_pos h, hdev]
  · unfold call
    rw [if_pos h, he]
  · unfold call
    rw [if_neg h]
  · simp only [call]
    by_cases h : (exchange 0).error.code = c.ERROR_CONNECT_TO_SERVER ∨
        (exchange 0).error.code = c.ERROR_UNAUTHORIZED_TO_SERVER
    · rw [if_pos h]
      cases login_result <;> simp
    · rw [if_neg h]
      simp
  · simp only [call]
    by_cases h : (exchange 0).error.code = c.ERROR_CONNECT_TO_SERVER ∨
        (exchange 0).error.code = c.ERROR_UNAUTHORIZED_TO_SERVER
    · rw [if_pos h]
      cases login_result <;> simp
    · rw [if_neg h]
      simp

/-- Witness for C1: unauthorized first exchange, successful login, retry
result returned with two exchanges and one login. -/
theorem call_relogin_retry_once_witness :
    call demoConsts exchangeFixture (.ok "dev") = (.ok (exchangeFixture 1), 2, 1) :=
  ((call_relogin_retry_once demoConsts exchangeFixture (.ok "dev")).1
    (by decide)).1 "dev" rfl

/-- C2 counterexample: a snapshot-delete envelope carrying the
snapshot-not-found sentinel makes `_delete_snapshot` raise
`InvalidShare`: snapshot deletion is not idempotent at this layer,
contrary to the claim. -/
theorem delete_snapshot_not_found_raises :
    delete_snapshot
        (⟨⟨demoConsts.MSG_SNAPSHOT_NOT_FOUND, "snapshot does not exist"⟩, none⟩ :
          Envelope Unit) =
      .error (.invalidShare "Delete snapshot error."
        (some ⟨⟨demoConsts.MSG_SNAPSHOT_NOT_FOUND, "snapshot does not exist"⟩, none⟩)) ∧
    delete_snapshot
        (⟨⟨demoConsts.MSG_SNAPSHOT_NOT_FOUND, "snapshot does not exist"⟩, none⟩ :
          Envelope Unit) ≠ .ok () := by
  decide

/-- C2 amended: replication-pair and HyperMetro-pair deletion are
idempotent (their not-exist sentinels return success), and any other
non-zero code raises a fatal error carrying the envelope; for snapshots
the not-found tolerance sits in `_check_snapshot_id_exist` (which maps
the sentinel to `false` without error) while `_delete_snapshot` itself
raises on the not-found sentinel exactly like on any other non-zero
code. -/
theorem idempotent_deletes_amended {α : Type} (c : Consts) (pair_id : String)
    (result : Envelope α) :
    (result.error.code = c.ERROR_REPLICATION_PAIR_NOT_EXIST →
      delete_replication_pair c pair_id result = .ok ()) ∧
    (result.error.code = c.ERROR_HYPERMETRO_NOT_EXIST →
      delete_hypermetro_pair c pair_id result = .ok ()) ∧
    (result.error.code = c.MSG_SNAPSHOT_NOT_FOUND →
      check_snapshot_id_exist c result = .ok false ∧
      (result.error.code ≠ 0 →
        delete_snapshot result =
          .error (.invalidShare "Delete snapshot error." (some result)))) ∧
    (result.error.code ≠ 0 →
      (result.error.code ≠ c.ERROR_REPLICATION_PAIR_NOT_EXIST →
        delete_replication_pair c pair_id result =
          .error (.invalidShare
            ("Failed to delete replication pair " ++ pair_id ++ ".") (some result))) ∧
      (result.error.code ≠ c.ERROR_HYPERMETRO_NOT_EXIST →
        delete_hypermetro_pair c pair_id result =
          .error (.invalidShare
            ("Delete HyperMetro pair " ++ pair_id ++ " error.") (some result))) ∧
      delete_snapshot result =
        .error (.invalidShare "Delete snapshot error." (some result))) := by
  refine ⟨fun h => ?_, fun h => ?_, fun h => ⟨?_, fun h0 => ?_⟩,
    fun h0 => ⟨fun hr => ?_, fun hh => ?_, ?_⟩⟩
  · simp [delete_replication_pair, h]
  · simp [delete_hypermetro_pair, h]
  · simp [check_snapshot_id_exist, h]
  · simp [delete_snapshot, assert_rest_result, h0]
  · simp [delete_replication_pair, assert_rest_result, h0, hr]
  · simp [delete_hypermetro_pair, assert_rest_result, h0, hh]
  · simp [delete_snapshot, assert_rest_result, h0]

/-- Witness for C2 (amended): the not-exist sentinels make the two pair
deletions succeed and the snapshot existence check answer `false`. -/
theorem idempotent_deletes_amended_witness :
    delete_replication_pair demoConsts "p1"
        (⟨⟨demoConsts.ERROR_REPLICATION_PAIR_NOT_EXIST, "gone"⟩, none⟩ : Envelope Unit) =
      .ok () ∧
    delete_hypermetro_pair demoConsts "p2"
        (⟨⟨demoConsts.ERROR_HYPERMETRO_NOT_EXIST, "gone"⟩, none⟩ : Envelope Unit) =
      .ok () ∧
    check_snapshot_id_exist demoConsts
        (⟨⟨demoConsts.MSG_SNAPSHOT_NOT_FOUND, "gone"⟩, none⟩ : Envelope Unit) =
      .ok false :=
  ⟨(idempotent_deletes_amended demoConsts "p1"
      (⟨⟨demoConsts.ERROR_REPLICATION_PAIR_NOT_EXIST, "gone"⟩, none⟩ : Envelope Unit)).1 rfl,
   (idempotent_deletes_amended demoConsts "p2"
      (⟨⟨demoConsts.ERROR_HYPERMETRO_NOT_EXIST, "gone"⟩, none⟩ : Envelope Unit)).2.1 rfl,
   ((idempotent_deletes_amended demoConsts "p3"
      (⟨⟨demoConsts.MSG_SNAPSHOT_NOT_FOUND, "gone"⟩, none⟩ : Envelope Unit)).2.2.1 rfl).1⟩

/-- C7: for every request with a valid method, `do_call` never raises for
transport or HTTP failures: a connection failure becomes the fixed
connect sentinel envelope with description `Connect server error`, an
HTTP failure becomes an envelope whose code is the HTTP status and whose
description is the exception text, and a successful parsed body is
returned verbatim; in all three cases the result is a returned envelope,
not an exception. -/
theorem do_call_failure_envelopes {α : Type} (c : Consts)
    (oracle : String → HttpOutcome α) (self_url : Option String) (url : String)
    (method : Option String)
    (hm : method.getD "POST" = "POST" ∨ method.getD "POST" = "PUT" ∨
      method.getD "POST" = "GET" ∨ method.getD "POST" = "DELETE") :
    (∀ t, oracle (effective_url self_url url) = .connError t →
      do_call c oracle self_url url method =
        .ok { error := ⟨c.ERROR_CONNECT_TO_SERVER, "Connect server error"⟩ }) ∧
    (∀ status excText, oracle (effective_url self_url url) = .httpError status excText →
      do_call c oracle self_url url method =
        .ok { error := ⟨(status : Int), excText⟩ }) ∧
    (∀ body, oracle (effective_url self_url url) = .success body →
      do_call c oracle self_url url method = .ok body) ∧
    (∃ env, do_call c oracle self_url url method = .ok env) := by
  refine ⟨fun t ht => ?_, fun status excText ht => ?_, fun body ht => ?_, ?_⟩
  · simp only [do_call]
    rw [if_pos hm, ht]
  · simp only [do_call]
    rw [if_pos hm, ht]
  · simp only [do_call]
    rw [if_pos hm, ht]
  · simp only [do_call]
    rw [if_pos hm]
    cases oracle (effective_url self_url url) <;> exact ⟨_, rfl⟩

/-- Witness for C7: a connection failure at a concrete request yields the
sentinel envelope. -/
theorem do_call_failure_envelopes_witness :
    do_call demoConsts (fun _ => (.connError "boom" : HttpOutcome Unit))
        none "/filesystem" none =
      .ok { error := ⟨demoConsts.ERROR_CONNECT_TO_SERVER, "Connect server error"⟩ } :=
  (do_call_failure_envelopes demoConsts (fun _ => .connError "boom")
    none "/filesystem" none (by decide)).1 "boom" rfl

/-- C9: `_assert_rest_result` raises a domain error carrying the caller's
message and the whole original envelope exactly when the code is
non-zero (and returns without effect exactly when it is zero);
`_assert_data_in_result` raises exactly when the envelope has no data
member (and returns without effect otherwise). -/
theorem assert_helpers_exact {α : Type} (result : Envelope α) (err_str msg : String) :
    (assert_rest_result result err_str =
        .error (.invalidShare err_str (some result)) ↔ result.error.code ≠ 0) ∧
    (assert_rest_result result err_str = .ok () ↔ result.error.code = 0) ∧
    (assert_data_in_result result msg =
        .error (.invalidShare (msg ++ " \"data\" was not in result.") none) ↔
      result.data = none) ∧
    (assert_data_in_result result msg = .ok () ↔ result.data.isSome) := by
  refine ⟨?_, ?_, ?_, ?_⟩
  · by_cases hc : result.error.code = 0 <;> simp [assert_rest_result, hc]
  · by_cases hc : result.error.code = 0 <;> simp [assert_rest_result, hc]
  · cases hd : result.data <;> simp [assert_data_in_result, hd]
  · cases hd : result.data <;> simp [assert_data_in_result, hd]

/-- Witness for C9: a non-zero envelope makes the success assertion raise
with the message and the envelope, and a data-less envelope makes the
payload assertion raise. -/
theorem assert_helpers_exact_witness :
    assert_rest_result (⟨⟨5, "boom"⟩, none⟩ : Envelope Unit) "op failed" =
      .error (.invalidShare "op failed" (some ⟨⟨5, "boom"⟩, none⟩)) ∧
    assert_data_in_result (⟨⟨0, "0"⟩, none⟩ : Envelope Unit) "op" =
      .error (.invalidShare ("op" ++ " \"data\" was not in result.") none) :=
  ⟨(assert_helpers_exact (⟨⟨5, "boom"⟩, none⟩ : Envelope Unit) "op failed" "m").1.mpr
      (by decide),
   (assert_helpers_exact (⟨⟨0, "0"⟩, none⟩ : Envelope Unit) "e" "op").2.2.1.mpr rfl⟩

/-- C3 counterexample: with a reported count of 250, an empty first
window and the target in the second window, the source's scan continues
past the empty page and finds the target on its second page query,
whereas the claim's reading ("a page returning fewer than 100 items, or
no items, ends the scan") stops after one query without finding it. -/
theorem short_page_does_not_end_scan :
    get_access_from_share accessPageFixture "alice" 250 = (some "5", 2) ∧
    get_access_from_share_spec accessPageFixture "alice" 250 = (none, 1) := by
  constructor
  · simp [get_access_from_share, get_access_from_share_loop, scan_access_page,
      accessPageFixture]
  · simp [get_access_from_share_spec, get_access_from_share_spec_loop,
      scan_access_page, accessPageFixture]

/-- C3 amended: the access lookup queries `/count` first, then scans
fixed 100-item windows, stopping as soon as a match is found or the
count budget — decremented by a fixed 100 per page regardless of the
page's actual size — is exhausted; a short or empty page does not end
the scan early.  At most `⌈count/100⌉` page queries are issued, and for
a reported count of 250 with the target first appearing in the second
window the lookup finds it with exactly two of the at most three page
queries. -/
theorem access_scan_windows_amended (page : Nat → List AccessItem) (t : String)
    (N : Nat) :
    (get_access_from_share page t (N : Int)).2 ≤ (N + 99) / 100 ∧
    (∀ a, scan_access_page t (page 0) none = none →
      scan_access_page t (page 100) none = some a →
      get_access_from_share page t 250 = (some a, 2)) := by
  constructor
  · exact get_access_loop_queries_le page t N 0 none
  · intro a h0 h1
    simp [get_access_from_share, get_access_from_share_loop, h0, h1]

/-- Witness for C3 (amended): the concrete 250-count trace where the
second window holds the target. -/
theorem access_scan_windows_amended_witness :
    get_access_from_share accessPageFixture "alice" 250 = (some "5", 2) ∧
    (get_access_from_share accessPageFixture "alice" 250).2 ≤ (250 + 99) / 100 := by
  have h := access_scan_windows_amended accessPageFixture "alice" 250
  exact ⟨h.2 "5" (by decide) (by decide), h.1⟩

/-- C4 counterexample: for the domain-qualified identity `DOMAIN\bob`
whose grants all report user-or-group-not-exist, the code issues exactly
two grant attempts, both with the AD domain type `'0'`, and raises; the
local domain type `'2'` is never attempted, so the claimed AD-then-local
fallback does not exist. -/
theorem cifs_backslash_never_tries_local :
    allow_cifs_access_rest demoConsts grantNotExistFixture "DOMAIN\\bob" =
      (.error (.invalidShare "Allow access error." none),
       [⟨"DOMAIN\\bob", "0"⟩, ⟨"@DOMAIN\\bob", "0"⟩]) ∧
    ((allow_cifs_access_rest demoConsts grantNotExistFixture "DOMAIN\\bob").2.all
      (fun attempt => attempt.domaintype == "0")) = true := by
  decide

/-- C4 amended: CIFS granting attempts the direct user grant and falls
back to the `'@'`-prefixed group grant if and only if the array reported
user-or-group-not-exist; any other non-zero code aborts immediately with
the envelope and no fallback; identities containing a backslash use only
the AD domain type `'0'` for both steps (the local domain type is never
tried for them) and identities without a backslash use only the local
domain type `'2'`; if every attempted grant reports
user-or-group-not-exist, `InvalidShare` is raised. -/
theorem cifs_access_fallback_amended (c : Consts)
    (grant : String → String → Envelope Unit) (access_to : String)
    (hne : c.ERROR_USER_OR_GROUP_NOT_EXIST ≠ 0) :
    ∀ dt, dt = (if pyContains access_to '\\' = true then "0" else "2") →
      allow_cifs_access_rest c grant access_to = cifs_try_domain c grant access_to dt ∧
      (∀ a ∈ (allow_cifs_access_rest c grant access_to).2, a.domaintype = dt) ∧
      ((grant access_to dt).error.code = 0 →
        allow_cifs_access_rest c grant access_to = (.ok (), [⟨access_to, dt⟩])) ∧
      ((grant access_to dt).error.code ≠ 0 →
       (grant access_to dt).error.code ≠ c.ERROR_USER_OR_GROUP_NOT_EXIST →
        allow_cifs_access_rest c grant access_to =
          (.error (.invalidShare "Allow access error." (some (grant access_to dt))),
           [⟨access_to, dt⟩])) ∧
      ((grant access_to dt).error.code = c.ERROR_USER_OR_GROUP_NOT_EXIST →
        ((grant ("@" ++ access_to) dt).error.code = 0 →
          allow_cifs_access_rest c grant access_to =
            (.ok (), [⟨access_to, dt⟩, ⟨"@" ++ access_to, dt⟩])) ∧
        ((grant ("@" ++ access_to) dt).error.code = c.ERROR_USER_OR_GROUP_NOT_EXIST →
          allow_cifs_access_rest c grant access_to =
            (.error (.invalidShare "Allow access error." none),
             [⟨access_to, dt⟩, ⟨"@" ++ access_to, dt⟩]))) := by
  intro dt hdt
  have hbr : allow_cifs_access_rest c grant access_to =
      cifs_try_domain c grant access_to dt := by
    unfold allow_cifs_access_rest
    by_cases hb : pyContains access_to '\\' = true
    · rw [hdt, if_pos hb, if_neg (by simp [hb])]
    · rw [hdt, if_neg hb, if_pos (by simp [Bool.not_eq_true] at hb; simp [hb])]
  have hc := cifs_try_domain_cases c grant access_to dt hne
  rw [hbr]
  exact ⟨rfl, hc.1, hc.2.1, hc.2.2.1, hc.2.2.2⟩

/-- Witness for C4 (amended): for plain identity `alice`, the failed user
grant falls back to the successful group grant `@alice`, both on the
local domain type. -/
theorem cifs_access_fallback_amended_witness :
    allow_cifs_access_rest demoConsts grantGroupFixture "alice" =
      (.ok (), [⟨"alice", "2"⟩, ⟨"@alice", "2"⟩]) :=
  (((cifs_access_fallback_amended demoConsts grantGroupFixture "alice"
    (by decide) "2" (by decide)).2.2.2.2 (by decide)).1 (by decide))

/-- C10: with the count endpoint reporting `N` and no matching item
anywhere, the share-by-name scan issues exactly `N / 100 + 1` page
queries (so at least one even when `N = 0`), while the access scan
issues exactly `⌈N / 100⌉` (so none when `N = 0`); both loops are total
Lean functions, so they terminate for every non-negative reported
count. -/
theorem scan_query_counts (pages : Nat → List ShareItem) (share_name : String)
    (page : Nat → List AccessItem) (t : String) (N : Nat)
    (hs : ∀ rb, get_share_by_name_range share_name (pages rb) = none)
    (ha : ∀ rb, scan_access_page t (page rb) none = none) :
    get_share_by_name pages share_name (N : Int) = (none, N / 100 + 1) ∧
    get_access_from_share page t (N : Int) = (none, (N + 99) / 100) := by
  constructor
  · unfold get_share_by_name
    have h : ∀ rb, (fun rb => get_share_by_name_range share_name (pages rb)) rb = none :=
      fun rb => hs rb
    exact get_share_loop_no_match _ h N 0
  · unfold get_access_from_share
    exact get_access_loop_no_match page t ha N 0

/-- Witness for C10: all-empty pages with reported counts 0 and 250. -/
theorem scan_query_counts_witness :
    get_share_by_name sharePagesEmpty "s1" ((0 : Nat) : Int) = (none, 1) ∧
    get_access_from_share (fun _ => []) "t" ((0 : Nat) : Int) = (none, 0) ∧
    get_share_by_name sharePagesEmpty "s1" ((250 : Nat) : Int) = (none, 3) ∧
    get_access_from_share (fun _ => []) "t" ((250 : Nat) : Int) = (none, 3) := by
  have h0 := scan_query_counts sharePagesEmpty "s1" (fun _ => []) "t" 0
    (fun _ => rfl) (fun _ => rfl)
  have h250 := scan_query_counts sharePagesEmpty "s1" (fun _ => []) "t" 250
    (fun _ => rfl) (fun _ => rfl)
  refine ⟨h0.1, by simpa using h0.2, by simpa using h250.1, by simpa using h250.2⟩

/-- C5: `login` walks the semicolon-split candidate URLs in their
configured order, resetting the session state before each attempt (each
loop iteration starts from `init_http_head`, which is also why the state
the loop starts from is irrelevant); it accepts the first candidate
whose response has error code 0, a present data payload and a non-null
device id, after which the stored base URL is exactly that candidate
concatenated with the returned device id (and the token header is the
returned token); if every candidate fails these checks, the
all-URLs-exhausted error is raised. -/
theorem login_accepts_first_good_url (c : Consts)
    (resp : String → Envelope LoginData) (logout_resp : Envelope Unit) :
    (∀ urlstr, login c resp logout_resp urlstr =
      login_loop c resp logout_resp (pySplit urlstr ';') init_http_head) ∧
    (∀ (pre : List String) (u : String) (rest : List String) (d : LoginData)
        (dev : String),
      (∀ v ∈ pre, login_rejected (resp (login_request_url v)) = true) →
      (resp (login_request_url u)).error.code = 0 →
      (resp (login_request_url u)).data = some d →
      d.deviceid = some dev →
      d.accountstate ∉ c.PWD_EXPIRED_OR_INITIAL →
      ∀ st, login_loop c resp logout_resp (pre ++ u :: rest) st =
        (.ok dev, ⟨some (u ++ dev), some d.iBaseToken⟩)) ∧
    (∀ urls st, (∀ v ∈ urls, login_rejected (resp (login_request_url v)) = true) →
      (login_loop c resp logout_resp urls st).1 =
        .error (.invalidShare "All url login fail." none)) := by
  refine ⟨fun urlstr => rfl, ?_, ?_⟩
  · intro pre u rest d dev hpre hcode hdata hdev hstate st
    rw [login_loop_first_accepted c resp logout_resp u d dev hcode hdata hdev
      pre hpre rest st]
    rw [if_neg hstate]
  · intro urls st hrej
    rw [login_loop_all_fail c resp logout_resp urls st hrej]

/-- Witness for C5: three candidates, the first fails with a connect
error, the second is accepted; the stored base URL is the second
candidate followed by the device id. -/
theorem login_accepts_first_good_url_witness :
    login_loop demoConsts loginRespFixture ⟨⟨0, "0"⟩, none⟩
        (["u1"] ++ "u2" :: ["u3"]) init_http_head =
      (.ok "dev", ⟨some ("u2" ++ "dev"), some "tok"⟩) :=
  (login_accepts_first_good_url demoConsts loginRespFixture ⟨⟨0, "0"⟩, none⟩).2.1
    ["u1"] "u2" ["u3"] ⟨some "dev", "tok", 0⟩ "dev"
    (by decide) (by decide) (by decide) rfl (by decide) init_http_head

/-- C6 counterexample: an accepted login whose account state is in the
password-expired set makes `login` log out and raise, but the stored
base URL and token afterwards still hold the rejected session's values
(`self.url = item_url + deviceid`, `iBaseToken` header set) — only the
array-side session was deleted — contradicting the claim that the stored
state no longer refers to the rejected session. -/
theorem login_pwd_expired_leaks_state :
    login demoConsts loginExpiredFixture ⟨⟨0, "0"⟩, none⟩ "u1" =
      (.error (.shareBackend
        "Password has expired or initial, please change the password."),
       ⟨some "u1dev", some "tok"⟩) ∧
    (login demoConsts loginExpiredFixture ⟨⟨0, "0"⟩, none⟩ "u1").2.url ≠ none ∧
    (login demoConsts loginExpiredFixture ⟨⟨0, "0"⟩, none⟩ "u1").2.iBaseToken ≠ none := by
  decide

/-- C6 amended: when a login response is otherwise accepted but its
account state is in the password-expired set, `login` immediately issues
the session `DELETE` (a failing logout response turns into the logout
error instead) and raises the fatal password-expired error; after an
all-URLs-exhausted failure the stored base URL and token are reset
(`init_http_head`), but after the password-expired failure they still
hold the rejected session's base URL and token. -/
theorem login_pwd_expired_amended (c : Consts)
    (resp : String → Envelope LoginData) (logout_resp : Envelope Unit)
    (u : String) (d : LoginData) (dev : String)
    (hcode : (resp (login_request_url u)).error.code = 0)
    (hdata : (resp (login_request_url u)).data = some d)
    (hdev : d.deviceid = some dev)
    (hexp : d.accountstate ∈ c.PWD_EXPIRED_OR_INITIAL) :
    ∀ (rest : List String) (st : SessionState),
      (logout_resp.error.code = 0 →
        login_loop c resp logout_resp (u :: rest) st =
          (.error (.shareBackend
            "Password has expired or initial, please change the password."),
           ⟨some (u ++ dev), some d.iBaseToken⟩)) ∧
      (logout_resp.error.code ≠ 0 →
        login_loop c resp logout_resp (u :: rest) st =
          (.error (.invalidShare "Logout session error." (some logout_resp)),
           ⟨some (u ++ dev), some d.iBaseToken⟩)) ∧
      (∀ urls, (∀ v ∈ urls, login_rejected (resp (login_request_url v)) = true) →
        (login_loop c resp logout_resp urls st).2 =
          if urls.isEmpty then st else init_http_head) := by
  intro rest st
  have h := login_loop_first_accepted c resp logout_resp u d dev hcode hdata hdev
    [] (by simp) rest st
  rw [List.nil_append] at h
  rw [if_pos hexp] at h
  refine ⟨fun h0 => ?_, fun h0 => ?_, fun urls hrej => ?_⟩
  · rw [h]
    simp [logout, assert_rest_result, h0]
  · rw [h]
    simp [logout, assert_rest_result, h0]
  · rw [login_loop_all_fail c resp logout_resp urls st hrej]

/-- Witness for C6 (amended): a concrete accepted-but-expired login run
where the logout succeeds; the final state still holds the rejected
session's URL and token. -/
theorem login_pwd_expired_amended_witness :
    login_loop demoConsts loginExpiredFixture ⟨⟨0, "0"⟩, none⟩ ["u1"] init_http_head =
      (.error (.shareBackend
        "Password has expired or initial, please change the password."),
       ⟨some ("u1" ++ "dev"), some "tok"⟩) :=
  ((login_pwd_expired_amended demoConsts loginExpiredFixture ⟨⟨0, "0"⟩, none⟩
    "u1" ⟨some "dev", "tok", 3⟩ "dev" (by decide) (by decide) rfl (by decide)
    [] init_http_head).1 rfl)

/-- C8: a QoS policy is selected for reuse only when it is active, has
fewer than 64 (`MAX_FS_NUM_IN_QOS`) comma-separated entries in its
filesystem list, is named with the recognised prefix, carries no LUN
associations (`LUNLIST = '[""]'`), and matches the requested spec
values; and the new filesystem list sent by `add_share_to_qos` is the
old quote-wrapped comma-separated string parsed, with the target id (and
empty fragments) removed, the target id appended exactly once; parsing
the re-serialised encoding of well-formed id lists is the identity, so
the update round-trips through the same string encoding. -/
theorem qos_reuse_and_fs_list (c : Consts) (qos_spec : List (String × String))
    (data : Option (List QosItem)) (fs_id fs_list : String) (l : List String) :
    (∀ qid fl, find_available_qos c qos_spec data = (some qid, fl) →
      ∃ items item, data = some items ∧ item ∈ items ∧
        item.ID = qid ∧ fl = some item.FSLIST ∧
        item.RUNNINGSTATUS = c.STATUS_QOS_ACTIVE ∧
        fs_num item < c.MAX_FS_NUM_IN_QOS ∧
        pyStartsWith item.NAME c.QOS_NAME_PREF = true ∧
        item.LUNLIST = "[\"\"]" ∧
        qos_specs_match c (with_latency_default qos_spec) item = true) ∧
    (add_share_to_qos_fs_list fs_id fs_list =
      ((parse_fs_list fs_list).filter
        (fun tmp_fs_id => tmp_fs_id != "" && tmp_fs_id != fs_id)) ++ [fs_id]) ∧
    ((add_share_to_qos_fs_list fs_id fs_list).count fs_id = 1) ∧
    (l ≠ [] → (∀ s ∈ l, ',' ∉ s.data) →
      parse_fs_list (serialize_fs_list l) = l) := by
  refine ⟨?_, rfl, ?_, parse_serialize_fs_list l⟩
  · intro qid fl h
    unfold find_available_qos at h
    cases data with
    | none => simp at h
    | some items =>
      simp only [Option.some.injEq] at h ⊢
      cases hf : items.find? (fun item =>
          qos_specs_match c (with_latency_default qos_spec) item &&
          qos_available c item) with
      | none =>
        rw [hf] at h
        simp at h
      | some item =>
        rw [hf] at h
        simp only [Prod.mk.injEq, Option.some.injEq] at h
        have hmem := List.mem_of_find?_eq_some hf
        have hp := List.find?_some hf
        simp only [Bool.and_eq_true] at hp
        have hav := hp.2
        simp only [qos_available, Bool.and_eq_true, beq_iff_eq,
          decide_eq_true_eq] at hav
        exact ⟨items, item, rfl, hmem, h.1, h.2.symm, hav.1.1.1, hav.1.1.2,
          hav.1.2, hav.2, hp.1⟩
  · unfold add_share_to_qos_fs_list
    rw [List.count_append]
    have hz : ((parse_fs_list fs_list).filter
        (fun tmp_fs_id => tmp_fs_id != "" && tmp_fs_id != fs_id)).count fs_id = 0 := by
      apply List.count_eq_zero.mpr
      intro hmem
      have := List.of_mem_filter hmem
      simp at this
    rw [hz]
    simp

/-- Witness for C8: a concrete reusable policy is found with all reuse
conditions met, and a concrete fs-list update removes the already
present id, appends it once, and round-trips through the string
encoding. -/
theorem qos_reuse_and_fs_list_witness :
    (∃ items item, (some [qosItemFixture]) = some items ∧ item ∈ items ∧
      item.ID = "11" ∧ (some "[\"9\"]" : Option String) = some item.FSLIST ∧
      item.RUNNINGSTATUS = demoConsts.STATUS_QOS_ACTIVE ∧
      fs_num item < demoConsts.MAX_FS_NUM_IN_QOS ∧
      pyStartsWith item.NAME demoConsts.QOS_NAME_PREF = true ∧
      item.LUNLIST = "[\"\"]" ∧
      qos_specs_match demoConsts
        (with_latency_default [("MAXIOPS", "100")]) item = true) ∧
    (add_share_to_qos_fs_list "a" "[\"a\",\"b\"]").count "a" = 1 ∧
    parse_fs_list (serialize_fs_list ["a", "b"]) = ["a", "b"] := by
  have h := qos_reuse_and_fs_list demoConsts [("MAXIOPS", "100")]
    (some [qosItemFixture]) "a" "[\"a\",\"b\"]" ["a", "b"]
  exact ⟨h.1 "11" (some "[\"9\"]") (by decide), h.2.2.1,
    h.2.2.2 (by decide) (by decide)⟩

end RestHelper
